import Mathlib

set_option maxRecDepth 100000

/-!
# Verification of the nlpipe task/document lifecycle core

Shallow embedding of the queue-manager core of the `nlpipe` repository:

* `nlpipe/Utils/utils.py` — `get_id` (the identity hasher, built on MD5);
* `nlpipe/Servers/Storage/FileSystemStorage.py` — the storage-backed queue manager
  (`status`, `process`, `result`, `get_task`, `store_result`, `store_error`);
* `nlpipe/Storage/FileSystemStorage.py` — the doc-storage module used by the task manager;
* `nlpipe/Tasks/TaskManager.py` — the task manager (`process`, `get_task`, `get_doc_status`);
* `nlpipe/TaskManagers/DatabaseTaskManager.py` — the `Task` and `Docs` peewee tables;
* `nlpipe/Workers/worker.py` — one iteration of the worker loop.

The peewee database is modelled as lists of rows in insertion order, the filesystem as an
association list from path to file content, and Python exceptions as `Except.error`.
-/

/-! ## MD5 (as used by `hashlib.md5` in `nlpipe/Utils/utils.py`) -/

/-- 2^32, the modulus for the 32-bit arithmetic of MD5. -/
def M32 : Nat := 4294967296

/-- Addition modulo 2^32. -/
def add32 (a b : Nat) : Nat := (a + b) % M32

/-- 32-bit left rotation (inputs are kept below 2^32). -/
def rotl32 (x s : Nat) : Nat := Nat.lor ((x <<< s) % M32) (x >>> (32 - s))

/-- Bitwise complement on 32 bits. -/
def not32 (x : Nat) : Nat := Nat.xor x 4294967295

/-- The MD5 sine-derived constant table T[1..64] of RFC 1321. -/
def md5K : List Nat :=
  [0xd76aa478, 0xe8c7b756, 0x242070db, 0xc1bdceee,
   0xf57c0faf, 0x4787c62a, 0xa8304613, 0xfd469501,
   0x698098d8, 0x8b44f7af, 0xffff5bb1, 0x895cd7be,
   0x6b901122, 0xfd987193, 0xa679438e, 0x49b40821,
   0xf61e2562, 0xc040b340, 0x265e5a51, 0xe9b6c7aa,
   0xd62f105d, 0x02441453, 0xd8a1e681, 0xe7d3fbc8,
   0x21e1cde6, 0xc33707d6, 0xf4d50d87, 0x455a14ed,
   0xa9e3e905, 0xfcefa3f8, 0x676f02d9, 0x8d2a4c8a,
   0xfffa3942, 0x8771f681, 0x6d9d6122, 0xfde5380c,
   0xa4beea44, 0x4bdecfa9, 0xf6bb4b60, 0xbebfbc70,
   0x289b7ec6, 0xeaa127fa, 0xd4ef3085, 0x04881d05,
   0xd9d4d039, 0xe6db99e5, 0x1fa27cf8, 0xc4ac5665,
   0xf4292244, 0x432aff97, 0xab9423a7, 0xfc93a039,
   0x655b59c3, 0x8f0ccc92, 0xffeff47d, 0x85845dd1,
   0x6fa87e4f, 0xfe2ce6e0, 0xa3014314, 0x4e0811a1,
   0xf7537e82, 0xbd3af235, 0x2ad7d2bb, 0xeb86d391]

/-- The MD5 per-round shift amounts. -/
def md5S : List Nat :=
  [7, 12, 17, 22, 7, 12, 17, 22, 7, 12, 17, 22, 7, 12, 17, 22,
   5, 9, 14, 20, 5, 9, 14, 20, 5, 9, 14, 20, 5, 9, 14, 20,
   4, 11, 16, 23, 4, 11, 16, 23, 4, 11, 16, 23, 4, 11, 16, 23,
   6, 10, 15, 21, 6, 10, 15, 21, 6, 10, 15, 21, 6, 10, 15, 21]

/-- The MD5 round function (F, G, H, I depending on the round index). -/
def md5F (i b c d : Nat) : Nat :=
  if i < 16 then Nat.lor (Nat.land b c) (Nat.land (not32 b) d)
  else if i < 32 then Nat.lor (Nat.land d b) (Nat.land (not32 d) c)
  else if i < 48 then Nat.xor (Nat.xor b c) d
  else Nat.xor c (Nat.lor b (not32 d))

/-- The MD5 message-word index for round `i`. -/
def md5G (i : Nat) : Nat :=
  if i < 16 then i
  else if i < 32 then (5 * i + 1) % 16
  else if i < 48 then (3 * i + 5) % 16
  else (7 * i) % 16

/-- `n` as `k` little-endian bytes. -/
def toLEBytes (n : Nat) : Nat → List Nat
  | 0 => []
  | k + 1 => (n % 256) :: toLEBytes (n / 256) k

/-- The `i`-th little-endian 32-bit word of a byte block. -/
def leWord (block : List Nat) (i : Nat) : Nat :=
  block.getD (4 * i) 0 + 256 * block.getD (4 * i + 1) 0
    + 65536 * block.getD (4 * i + 2) 0 + 16777216 * block.getD (4 * i + 3) 0

/-- One MD5 round on the four-word state. -/
def md5Round (block : List Nat) (st : Nat × Nat × Nat × Nat) (i : Nat) : Nat × Nat × Nat × Nat :=
  let (a, b, c, d) := st
  let f := (md5F i b c d + a + md5K.getD i 0 + leWord block (md5G i)) % M32
  (d, add32 b (rotl32 f (md5S.getD i 0)), b, c)

/-- Process one 64-byte block. -/
def md5Chunk (st : Nat × Nat × Nat × Nat) (block : List Nat) : Nat × Nat × Nat × Nat :=
  let (a0, b0, c0, d0) := st
  let (a, b, c, d) := (List.range 64).foldl (md5Round block) st
  (add32 a0 a, add32 b0 b, add32 c0 c, add32 d0 d)

/-- MD5 padding: a 0x80 byte, zeros to 56 mod 64, then the bit length as 8 little-endian bytes. -/
def md5Pad (msg : List Nat) : List Nat :=
  let len := msg.length
  let zeros := (120 - (len + 1) % 64) % 64
  msg ++ [128] ++ List.replicate zeros 0 ++ toLEBytes ((8 * len) % 2 ^ 64) 8

/-- Split a byte list into 64-byte chunks. -/
def chunksAux : Nat → List Nat → List (List Nat)
  | 0, _ => []
  | _, [] => []
  | fuel + 1, l => l.take 64 :: chunksAux fuel (l.drop 64)

/-- Split a byte list into 64-byte chunks (fuelled by the length). -/
def chunks64 (l : List Nat) : List (List Nat) := chunksAux l.length l

/-- The 16 digest bytes of the MD5 of a byte list. -/
def md5Digest (msg : List Nat) : List Nat :=
  let (a, b, c, d) :=
    (chunks64 (md5Pad msg)).foldl md5Chunk (0x67452301, 0xefcdab89, 0x98badcfe, 0x10325476)
  toLEBytes a 4 ++ toLEBytes b 4 ++ toLEBytes c 4 ++ toLEBytes d 4

/-- A nibble as a lowercase hex character. -/
def hexDigitChar (n : Nat) : Char :=
  if n < 10 then Char.ofNat (48 + n) else Char.ofNat (87 + n)

/-- A byte as two lowercase hex characters. -/
def byteHex (b : Nat) : String := String.mk [hexDigitChar (b / 16), hexDigitChar (b % 16)]

/-- `hashlib.md5(msg).hexdigest()`: the 32-character lowercase hex digest. -/
def md5Hex (msg : List Nat) : String := String.join ((md5Digest msg).map byteHex)

/-- UTF-8 encoding of one code point (mirrors CPython's `str.encode("utf-8")`). -/
def utf8Enc (c : Nat) : List Nat :=
  if c < 128 then [c]
  else if c < 2048 then [192 + c / 64, 128 + c % 64]
  else if c < 65536 then [224 + c / 4096, 128 + c / 64 % 64, 128 + c % 64]
  else [240 + c / 262144, 128 + c / 4096 % 64, 128 + c / 64 % 64, 128 + c % 64]

/-- The UTF-8 bytes of a string, as naturals. -/
def strBytes (s : String) : List Nat := s.data.flatMap (fun c => utf8Enc c.toNat)

/-! ## `get_id` (`nlpipe/Utils/utils.py`)

```python
def get_id(tool, doc):
    if len(doc) == 34 and doc.startswith("0x"):  # it sure looks like a hash
        return doc
    m = hashlib.md5()
    m.update(doc.encode("utf-8"))
    m.update(tool.encode("utf-8"))
    return "0x" + m.hexdigest()
```
(the source feeds `doc` first and `tool` second into the running hash). -/

/-- `get_id(tool, doc)` from `nlpipe/Utils/utils.py`. -/
def get_id (tool doc : String) : String :=
  if doc.length == 34 && doc.startsWith "0x" then doc
  else "0x" ++ md5Hex (strBytes doc ++ strBytes tool)

/-- Decidable equality for `Except` (used to evaluate results on concrete inputs). -/
def exceptDecEq {ε α : Type} [DecidableEq ε] [DecidableEq α] : DecidableEq (Except ε α)
  | Except.error a, Except.error b =>
    if h : a = b then isTrue (by rw [h]) else isFalse (fun he => by cases he; exact h rfl)
  | Except.error _, Except.ok _ => isFalse (fun he => by cases he)
  | Except.ok _, Except.error _ => isFalse (fun he => by cases he)
  | Except.ok a, Except.ok b =>
    if h : a = b then isTrue (by rw [h]) else isFalse (fun he => by cases he; exact h rfl)

instance {ε α : Type} [DecidableEq ε] [DecidableEq α] : DecidableEq (Except ε α) := exceptDecEq

/-! ## Data model

`nlpipe/TaskManagers/DatabaseTaskManager.py` (identical to `nlpipe/Tasks/DatabaseTaskManager.py`):

```python
class Task(BaseModel):
    created_date = DateTimeField(...)
    tool = CharField(unique=False)
    status = CharField(unique=False)

class Docs(BaseModel):
    doc_id = CharField(unique=True)   # id of the document, needs to be unique
    task_id = ForeignKeyField(Task, to_field="id")
    path = CharField(unique=False)
    status = CharField(unique=False)
```

The tables are modelled as lists of rows in insertion order; the implicit autoincrement
primary key of `Task` is modelled by `nextTaskId`.  The `Docs` table has **no** tool column.
The filesystem is an association list from absolute path to file content. -/

/-- A row of the `Task` table (`created_date` omitted: never read by the core). -/
structure TaskRow where
  id : Nat
  tool : String
  status : String
deriving DecidableEq, Repr

/-- A row of the `Docs` table. -/
structure DocRow where
  doc_id : String
  task_id : Option Nat
  path : String
  status : String
deriving DecidableEq, Repr

/-- The shared mutable state: the two database tables and the blob filesystem, plus the
`result_dir` configured on the storage object. -/
structure State where
  result_dir : String
  tasks : List TaskRow
  nextTaskId : Nat
  docs : List DocRow
  fs : List (String × String)
deriving DecidableEq, Repr

/-- peewee `Docs.get(pred)`: the first row satisfying the predicate, or `DoesNotExist`
(modelled as `none`). -/
def docsGet (docs : List DocRow) (p : DocRow → Bool) : Option DocRow := docs.find? p

/-- peewee `Docs.update(...).where(pred).execute()`: apply `f` to every row satisfying `pred`. -/
def docsUpdate (docs : List DocRow) (p : DocRow → Bool) (f : DocRow → DocRow) : List DocRow :=
  docs.map (fun r => if p r then f r else r)

/-- peewee `Docs.insert(row).execute()`: `doc_id` is declared `unique=True`, so inserting a
row whose `doc_id` already exists raises `IntegrityError`. -/
def docsInsert (docs : List DocRow) (r : DocRow) : Except String (List DocRow) :=
  if docs.any (fun q => q.doc_id == r.doc_id) then
    Except.error "IntegrityError: UNIQUE constraint failed: docs.doc_id"
  else Except.ok (docs ++ [r])

/-- `open(path, "w").write(content)`: create or overwrite the file at `path`. -/
def fsWrite (fs : List (String × String)) (path content : String) : List (String × String) :=
  (path, content) :: fs.filter (fun e => !(e.1 == path))

/-- `open(path).read()`: `none` models `FileNotFoundError`. -/
def fsRead (fs : List (String × String)) (path : String) : Option String :=
  (fs.find? (fun e => e.1 == path)).map (fun e => e.2)

/-- posix `os.path.join(a, b)`: an absolute second component discards the first; otherwise a
separator is inserted unless the first component is empty or already ends in a separator.
(The absoluteness/suffix tests are phrased on the character list, which agrees with
`b.startswith("/")` / `a.endswith("/")`.) -/
def osPathJoin (a b : String) : String :=
  if b.data.head? = some '/' then b
  else if a.data = [] ∨ a.data.getLast? = some '/' then a ++ b
  else a ++ "/" ++ b

/-- Python `str.format(**locals())` evaluated eagerly as the argument of `logging.debug`:
every `\x7bname\x7d` placeholder must name a local variable, otherwise `str.format` raises
`KeyError` — before any later statement of the enclosing function runs.  Only the placeholder
names and the local-variable names decide success, so values are not modelled. -/
def formatLocals (placeholders locals_ : List String) : Except String Unit :=
  match placeholders with
  | [] => Except.ok ()
  | k :: ks => if locals_.contains k then formatLocals ks locals_ else Except.error ("KeyError: " ++ k)

/-! ## `nlpipe/Servers/Storage/FileSystemStorage.py`

The class keeps `result_dir` and talks to the `Docs` table directly.  `_filename`, `_read`
and `_write` are shared verbatim with `nlpipe/Storage/FileSystemStorage.py`, so they are
modelled once, at top level. -/

/-- `_filename(tool, doc_id=None)`: `os.path.join(result_dir, tool)`, plus the doc id when
given. -/
def filename (result_dir tool : String) (doc_id : Option String) : String :=
  let tool_directory := osPathJoin result_dir tool
  match doc_id with
  | none => tool_directory
  | some d => osPathJoin tool_directory d

/-- `_write(tool, doc_id, doc)`: write the document at `_filename(tool, doc_id)` and return
the filename.  (`_check_dirs` only creates directories and is not observable here.) -/
def fssWrite (st : State) (tool doc_id doc : String) : String × State :=
  let fn := filename st.result_dir tool (some doc_id)
  (fn, { st with fs := fsWrite st.fs fn doc })

/-- `_read(tool, doc_id)`: open `_filename(tool, doc_id)`; a missing file raises
`FileNotFoundError`. -/
def fssRead (st : State) (tool doc_id : String) : Except String String :=
  match fsRead st.fs (filename st.result_dir tool (some doc_id)) with
  | some c => Except.ok c
  | none => Except.error "FileNotFoundError"

namespace Servers.FileSystemStorage

/-- `status(tool, doc_id)`: `Docs.get(Docs.doc_id == doc_id).status`, `"UNKNOWN"` on
`DoesNotExist`.  The `tool` argument is accepted and ignored, as in the source. -/
def status (docs : List DocRow) (tool doc_id : String) : String :=
  match docsGet docs (fun r => r.doc_id == doc_id) with
  | some r => r.status
  | none => "UNKNOWN"

/-- The local variable names of `FileSystemStorage.process` at its `logging.debug` calls:
`self, tool, doc, doc_id, task_id, reset_error, reset_pending, doc_status`. -/
def processLocals : List String :=
  ["self", "tool", "doc", "doc_id", "task_id", "reset_error", "reset_pending", "doc_status"]

/-- `process(tool, doc, doc_id=None, task_id=None, reset_error=False, reset_pending=False)`.

* `doc_id is None`: the source calls `get_id(doc)`, but `get_id` takes two positional
  arguments `(tool, doc)`, so the call raises `TypeError` before anything else happens.
* status `UNKNOWN`: log `"Assigning doc \x7bdoc_id\x7d to \x7btool\x7d"` (both names exist), write the blob,
  insert the `Docs` row with status `PENDING`.
* status `ERROR` with `reset_error`, or `STARTED` with `reset_pending`: the source first runs
  `logging.debug("Re-assigning doc \x7bdoc_id\x7d with status \x7bstatus\x7d to \x7btool\x7d".format(**locals()))`;
  no local named `status` exists (the variable is `doc_status`), so `str.format` raises
  `KeyError` and the `Docs.update` on the next line never executes.
* otherwise: log only; no mutation; return `doc_id`. -/
def process (st : State) (tool doc : String) (doc_id : Option String) (task_id : Option Nat)
    (reset_error reset_pending : Bool) : Except String String × State :=
  match doc_id with
  | none =>
    (Except.error "TypeError: get_id() missing 1 required positional argument: 'doc'", st)
  | some d =>
    let doc_status := status st.docs tool d
    if doc_status == "UNKNOWN" then
      match formatLocals ["doc_id", "tool"] processLocals with
      | Except.error e => (Except.error e, st)
      | Except.ok _ =>
        let (_, st1) := fssWrite st tool d doc
        match docsInsert st1.docs
            { doc_id := d, task_id := task_id, path := filename st.result_dir tool (some d),
              status := "PENDING" } with
        | Except.error e => (Except.error e, st1)
        | Except.ok docs1 => (Except.ok d, { st1 with docs := docs1 })
    else if (doc_status == "ERROR" && reset_error) || (doc_status == "STARTED" && reset_pending) then
      match formatLocals ["doc_id", "status", "tool"] processLocals with
      | Except.error e => (Except.error e, st)
      | Except.ok _ =>
        (Except.ok d,
         { st with docs := docsUpdate st.docs (fun r => r.doc_id == d)
                              (fun r => { r with status := "PENDING" }) })
    else
      (Except.ok d, st)

/-- `result(tool, doc_id, return_format=None)`.  The external tool's `convert` is passed in
as a function (it is an external collaborator).  When the status is `ERROR` the source runs
`raise ValueError("Status of \x7bdoc_id\x7d is ERROR")` — with no `.format` call, so the message is
that literal string and the stored error text is never read. -/
def result (st : State) (tool doc_id : String) (return_format : Option String)
    (convert : String → String → String → Except String String) :
    Except String String × State :=
  let s := status st.docs tool doc_id
  if s == "DONE" then
    match fssRead st tool doc_id with
    | Except.error e => (Except.error e, st)
    | Except.ok r =>
      match return_format with
      | none => (Except.ok r, st)
      | some fmt =>
        match convert doc_id r fmt with
        | Except.ok r2 => (Except.ok r2, st)
        | Except.error e => (Except.error e, st)   -- logged, then re-raised
  else if s == "ERROR" then
    (Except.error "Status of {doc_id} is ERROR", st)
  else
    (Except.error ("Status of " ++ doc_id ++ " is " ++ s), st)

/-- The SELECT of `get_task`: `Docs.get(Docs.status == "PENDING").doc_id`.  It filters on
status only — the `Docs` schema has no tool column and the `tool` argument of `get_task` is
not consulted. -/
def get_task_select (docs : List DocRow) : Option String :=
  (docsGet docs (fun r => r.status == "PENDING")).map (fun r => r.doc_id)

/-- The remainder of `get_task` after the SELECT: compute `fn = _filename(tool, doc_id)`,
return `(None, None)` if `fn` is falsy, otherwise run
`Docs.update(status="STARTED").where(Docs.doc_id == doc_id)` — an unconditional update whose
WHERE clause checks `doc_id` only, not that the status is still `PENDING` — and then read
`self._read(tool, fn)`.  Note the source passes the full filename `fn` where `_read` expects
a doc id, so the path is joined twice; a failing `open` raises `FileNotFoundError`, which the
`except Docs.DoesNotExist` clause does not catch, after the status flip has already been
executed. -/
def get_task_finish (st : State) (tool doc_id : String) :
    Except String (Option (String × String)) × State :=
  let fn := filename st.result_dir tool (some doc_id)
  if fn == "" then (Except.ok none, st)
  else
    let st1 := { st with docs := docsUpdate st.docs (fun r => r.doc_id == doc_id)
                              (fun r => { r with status := "STARTED" }) }
    match fssRead st1 tool fn with
    | Except.ok doc => (Except.ok (some (doc_id, doc)), st1)
    | Except.error e => (Except.error e, st1)

/-- `get_task(tool)`: SELECT one PENDING doc, then flip and read; `Docs.DoesNotExist` from
the SELECT is caught and `(None, None)` returned. -/
def get_task (st : State) (tool : String) : Except String (Option (String × String)) × State :=
  match get_task_select st.docs with
  | none => (Except.ok none, st)
  | some d => get_task_finish st tool d

/-- `store_result(tool, doc_id, result)`: guard on the current status, then overwrite the
blob and run `Docs.update(status="DONE")`. -/
def store_result (st : State) (tool doc_id result : String) : Except String Unit × State :=
  let s := status st.docs tool doc_id
  if !(s == "STARTED" || s == "DONE" || s == "ERROR") then
    (Except.error ("Cannot store result for task " ++ doc_id ++ " with status " ++ s), st)
  else
    let (_, st1) := fssWrite st tool doc_id result
    (Except.ok (),
     { st1 with docs := docsUpdate st1.docs (fun r => r.doc_id == doc_id)
                    (fun r => { r with status := "DONE" }) })

/-- `store_error(tool, doc_id, result)`: guard on the current status, overwrite the blob,
then run `Docs.update(doc_id="ERROR")` — the source updates the `doc_id` column, not the
`status` column (its own trailing comment reads "update the status in the database"). -/
def store_error (st : State) (tool doc_id result : String) : Except String Unit × State :=
  let s := status st.docs tool doc_id
  if !(s == "STARTED" || s == "DONE" || s == "ERROR") then
    (Except.error ("Cannot store error for task " ++ doc_id ++ " with status " ++ s), st)
  else
    let (_, st1) := fssWrite st tool doc_id result
    (Except.ok (),
     { st1 with docs := docsUpdate st1.docs (fun r => r.doc_id == doc_id)
                    (fun r => { r with doc_id := "ERROR" }) })

end Servers.FileSystemStorage

/-! ## `nlpipe/Storage/FileSystemStorage.py`

The doc-storage module used by the task manager (`self.app.docStorageModule`).  Its
`process` branches on the *passed* `doc_status` parameter, keeps no database itself, and
returns `(doc_id, filename)`. -/

namespace Storage.FileSystemStorage

/-- The local variable names of `Storage.FileSystemStorage.process` at its `logging.debug`
calls. -/
def processLocals : List String :=
  ["self", "tool", "doc", "doc_id", "task_id", "doc_status", "reset_error", "reset_pending"]

/-- `process(tool, doc, doc_id=None, task_id=None, doc_status="UNKNOWN", reset_error=False,
reset_pending=False)`.  Here the `doc_id is None` path calls `get_id(tool, doc)` with the
correct arity.  The reset branch again formats `"Re-assigning doc \x7bdoc_id\x7d with status
\x7bstatus\x7d to \x7btool\x7d"` over locals that have no `status` entry, raising `KeyError`. -/
def process (st : State) (tool doc : String) (doc_id : Option String) (task_id : Option Nat)
    (doc_status : String) (reset_error reset_pending : Bool) :
    Except String (String × String) × State :=
  let d := match doc_id with
           | none => get_id tool doc
           | some d0 => d0
  if doc_status == "PENDING" then
    match formatLocals ["doc_id", "tool"] processLocals with
    | Except.error e => (Except.error e, st)
    | Except.ok _ =>
      let (_, st1) := fssWrite st tool d doc
      (Except.ok (d, filename st.result_dir tool (some d)), st1)
  else if (doc_status == "ERROR" && reset_error) || (doc_status == "STARTED" && reset_pending) then
    match formatLocals ["doc_id", "status", "tool"] processLocals with
    | Except.error e => (Except.error e, st)
    | Except.ok _ => (Except.ok (d, filename st.result_dir tool (some d)), st)
  else
    (Except.ok (d, filename st.result_dir tool (some d)), st)

end Storage.FileSystemStorage

/-! ## `nlpipe/Tasks/TaskManager.py` -/

namespace TaskManager

/-- `get_doc_status(doc_id, tool=None)`: `Docs.get(Docs.doc_id == doc_id).status`,
`"UNKNOWN"` on `DoesNotExist`.  A `None` doc id matches no row. -/
def get_doc_status (docs : List DocRow) (doc_id : Option String) : String :=
  match doc_id with
  | some d =>
    match docsGet docs (fun r => r.doc_id == d) with
    | some r => r.status
    | none => "UNKNOWN"
  | none => "UNKNOWN"

/-- The local variable names of `TaskManager.process` at the reset-branch `logging.debug`
call. -/
def processLocals : List String :=
  ["self", "tool", "doc", "task_idx", "document_idx", "reset_error", "reset_pending",
   "doc_status"]

/-- `process(tool, doc, task_idx=None, document_idx=None, reset_error=False,
reset_pending=False)`.

* `task_idx is None` (a new task): insert a `Task` row (status PENDING, autoincrement id),
  call `docStorageModule.process(..., doc_status="PENDING")`, then insert the `Docs` row —
  the `doc_id` unique constraint makes this insert fallible — and return
  `(task_id, doc_id)`.
* otherwise: read the document status; on `(ERROR, reset_error)` or
  `(STARTED, reset_pending)` the source first formats `"Re-assigning doc \x7bdoc_id\x7d with status
  \x7bstatus\x7d to \x7btool\x7d"` over locals containing neither `doc_id` nor `status`, so `str.format`
  raises `KeyError: doc_id` before the `Docs.update`; in every other case it returns
  `(task_idx, document_idx)` unchanged. -/
def process (st : State) (tool doc : String) (task_idx : Option Nat)
    (document_idx : Option String) (reset_error reset_pending : Bool) :
    Except String (Option Nat × Option String) × State :=
  match task_idx with
  | none =>
    let task_id := st.nextTaskId
    let st1 := { st with tasks := st.tasks ++ [{ id := task_id, tool := tool, status := "PENDING" }],
                         nextTaskId := task_id + 1 }
    match Storage.FileSystemStorage.process st1 tool doc document_idx (some task_id)
        "PENDING" false false with
    | (Except.error e, st2) => (Except.error e, st2)
    | (Except.ok (d, path), st2) =>
      match docsInsert st2.docs
          { doc_id := d, task_id := some task_id, path := path, status := "PENDING" } with
      | Except.error e => (Except.error e, st2)
      | Except.ok docs1 => (Except.ok (some task_id, some d), { st2 with docs := docs1 })
  | some tid =>
    let doc_status := get_doc_status st.docs document_idx
    if (doc_status == "ERROR" && reset_error) || (doc_status == "STARTED" && reset_pending) then
      match formatLocals ["doc_id", "status", "tool"] processLocals with
      | Except.error e => (Except.error e, st)
      | Except.ok _ =>
        (Except.ok (some tid, document_idx),
         { st with docs := docsUpdate st.docs (fun r => some r.doc_id == document_idx)
                              (fun r => { r with status := "PENDING" }) })
    else (Except.ok (some tid, document_idx), st)

end TaskManager

/-! ## `nlpipe/Workers/worker.py` — one iteration of `Worker.run`

```python
try:
    result = self.tool.process(doc, additional_arguments=self.arguments)
    self.client.store_result(self.tool.name, doc_id, result)
except Exception as e:
    try:
        self.client.store_error(self.tool.name, id, str(e))
    except:
        logging.exception(...)
```

In the `except` branch the second argument is `id` — the Python **builtin function** `id`,
not the claimed `doc_id` (the adjacent log line interpolates `doc_id` correctly).  A
`PyVal` distinguishes real strings from that builtin function object. -/

/-- A Python value passed as the `doc_id` argument of a client call: either a string or the
builtin function `id`. -/
inductive PyVal where
  | str : String → PyVal
  | builtinId : PyVal
deriving DecidableEq, Repr

/-- A call made by the worker on its client. -/
inductive ClientCall where
  | storeResult (tool doc_id result : String)
  | storeError (tool : String) (doc_id : PyVal) (error : String)
deriving DecidableEq, Repr

/-- One iteration of `Worker.run` after `get_task` returned a claimed `(doc_id, doc)`.
`processResult` is the outcome of the external tool's `process` (which may raise);
`storeErrorRaises` says whether the client's `store_error` itself raises (caught by the
inner bare `except`).  Returns the client calls attempted and whether an exception
propagates out of the iteration (it never does). -/
def workerIteration (toolName doc_id doc : String) (processResult : Except String String)
    (storeErrorRaises : Bool) : List ClientCall × Bool :=
  match processResult with
  | Except.ok result => ([ClientCall.storeResult toolName doc_id result], false)
  | Except.error e => ([ClientCall.storeError toolName PyVal.builtinId e], false)

/-! ## Auxiliary definitions for the claim statements -/

/-- A fresh server state: empty tables (autoincrement ids start at 1), empty filesystem. -/
def initState (dir : String) : State :=
  { result_dir := dir, tasks := [], nextTaskId := 1, docs := [], fs := [] }

/-- Whether `sub` occurs as a contiguous substring of `hay`. -/
def containsSub : List Char → List Char → Bool
  | [], sub => sub.isEmpty
  | c :: t, sub => sub.isPrefixOf (c :: t) || containsSub t sub

/-! ## Claims -/

/-- The first submission of `("test_upper", "hello")` on a fresh state, with no explicit ids
and no reset flags. -/
def c1FirstCall : Except String (Option Nat × Option String) × State :=
  TaskManager.process (initState "/data") "test_upper" "hello" none none false false

/-- The identical second submission, on the state left by the first. -/
def c1SecondCall : Except String (Option Nat × Option String) × State :=
  TaskManager.process c1FirstCall.2 "test_upper" "hello" none none false false

/-- **C1** — the claim says `submit` is idempotent: two identical submissions return the same
`(task_id, doc_id)` and the second mutates nothing.  In the code the second
`TaskManager.process` call inserts a second `Task` row (mutation) and then raises
`IntegrityError` on the duplicate `Docs.insert`; and `Servers...FileSystemStorage.process`
cannot even compute a content-derived id, because it calls the two-argument `get_id` with a
single argument (`TypeError`). -/
theorem claim_C1_submit_not_idempotent :
    c1FirstCall.1 = Except.ok (some 1, some (get_id "test_upper" "hello")) ∧
    c1FirstCall.2.tasks.length = 1 ∧
    c1SecondCall.1 = Except.error "IntegrityError: UNIQUE constraint failed: docs.doc_id" ∧
    c1SecondCall.2.tasks.length = 2 ∧
    (Servers.FileSystemStorage.process (initState "/data") "test_upper" "hello"
        none none false false).1
      = Except.error "TypeError: get_id() missing 1 required positional argument: 'doc'" := by
  decide

/-- Concrete state for C3: one PENDING document, its blob in place. -/
def stC3 : State :=
  { result_dir := "/data", tasks := [], nextTaskId := 1,
    docs := [{ doc_id := "0xd", task_id := none, path := "/data/t/0xd", status := "PENDING" }],
    fs := [("/data/t/0xd", "hello")] }

/-- The characters of an appended string. -/
theorem strDataAppend (a b : String) : (a ++ b).data = a.data ++ b.data := by
  cases a; cases b; rfl

/-- `os.path.join` discards its first component when the second is absolute. -/
theorem osPathJoin_of_abs (a b : String) (h : b.data.head? = some '/') :
    osPathJoin a b = b := by
  simp [osPathJoin, h]

/-- Joining onto an absolute path yields an absolute path. -/
theorem head_osPathJoin (a b : String) (h : a.data.head? = some '/') :
    (osPathJoin a b).data.head? = some '/' := by
  unfold osPathJoin
  split
  · assumption
  split
  · rw [strDataAppend]
    cases ha : a.data with
    | nil => rw [ha] at h; exact absurd h (by decide)
    | cons c t => rw [ha] at h; simpa using h
  · rw [strDataAppend, strDataAppend]
    cases ha : a.data with
    | nil => rw [ha] at h; exact absurd h (by decide)
    | cons c t => rw [ha] at h; simpa using h

/-- Under an absolute `result_dir`, `_filename` returns an absolute path. -/
theorem filename_abs (rd tool d : String) (h : rd.data.head? = some '/') :
    (filename rd tool (some d)).data.head? = some '/' :=
  head_osPathJoin _ _ (head_osPathJoin _ _ h)

/-- An absolute path is not the empty (falsy) string. -/
theorem beq_empty_false_of_abs (s : String) (h : s.data.head? = some '/') :
    (s == "") = false := by
  apply beq_eq_false_iff_ne.mpr
  intro he
  rw [he] at h
  exact absurd h (by decide)

/-- After `Docs.update` sets the status of every row keyed `d`, `status` reports the new
value for `d` (provided some row with that key exists). -/
theorem status_docsUpdate_set (docs : List DocRow) (tool d new : String)
    (h : ∃ r ∈ docs, r.doc_id = d) :
    Servers.FileSystemStorage.status
      (docsUpdate docs (fun q => q.doc_id == d) (fun q => { q with status := new })) tool d
      = new := by
  induction docs with
  | nil => simp at h
  | cons q t ih =>
    by_cases hq : q.doc_id = d
    · simp [Servers.FileSystemStorage.status, docsGet, docsUpdate, hq]
    · have h' : ∃ r ∈ t, r.doc_id = d := by
        rcases h with ⟨r, hr, hd⟩
        rcases List.mem_cons.mp hr with rfl | hm
        · exact absurd hd hq
        · exact ⟨r, hm, hd⟩
      have ihh := ih h'
      simp only [Servers.FileSystemStorage.status, docsGet, docsUpdate, List.map_cons] at ihh ⊢
      rw [if_neg (by simpa using hq), List.find?_cons_of_neg _ (by simpa using hq)]
      exact ihh

/-- **C2** — for every state whose `result_dir` is absolute and whose PENDING documents have
their blobs in place under the queried tool's directory, `get_task` either picks a PENDING
document, flips exactly its rows to STARTED and returns its id with the stored blob content,
or — when no PENDING document exists — returns `(None, None)` without raising and without
touching the state.  (The double path join `_read(tool, fn)` collapses because `fn` is
absolute.) -/
theorem claim_C2_claim_behaviour (st : State) (tool : String)
    (habs : st.result_dir.data.head? = some '/')
    (hblob : ∀ r ∈ st.docs, r.status = "PENDING" →
      (fsRead st.fs (filename st.result_dir tool (some r.doc_id))).isSome = true) :
    (∃ r ∈ st.docs, ∃ c : String,
      r.status = "PENDING" ∧
      fsRead st.fs (filename st.result_dir tool (some r.doc_id)) = some c ∧
      Servers.FileSystemStorage.get_task st tool =
        (Except.ok (some (r.doc_id, c)),
         { st with docs := docsUpdate st.docs (fun q => q.doc_id == r.doc_id)
                      (fun q => { q with status := "STARTED" }) }) ∧
      Servers.FileSystemStorage.status
        (Servers.FileSystemStorage.get_task st tool).2.docs tool r.doc_id = "STARTED") ∨
    ((∀ r ∈ st.docs, r.status ≠ "PENDING") ∧
      Servers.FileSystemStorage.get_task st tool = (Except.ok none, st)) := by
  cases hfind : st.docs.find? (fun r => r.status == "PENDING") with
  | none =>
    right
    constructor
    · intro r hr
      have hnp := List.find?_eq_none.mp hfind r hr
      simpa using hnp
    · simp [Servers.FileSystemStorage.get_task, Servers.FileSystemStorage.get_task_select,
        docsGet, hfind]
  | some r =>
    left
    have hmem : r ∈ st.docs := List.mem_of_find?_eq_some hfind
    have hp : r.status = "PENDING" := by simpa using List.find?_some hfind
    obtain ⟨c, hc⟩ := Option.isSome_iff_exists.mp (hblob r hmem hp)
    have hfn_abs : (filename st.result_dir tool (some r.doc_id)).data.head? = some '/' :=
      filename_abs _ _ _ habs
    have hfn_ne : ((filename st.result_dir tool (some r.doc_id)) == "") = false :=
      beq_empty_false_of_abs _ hfn_abs
    have hcollapse :
        filename st.result_dir tool (some (filename st.result_dir tool (some r.doc_id)))
          = filename st.result_dir tool (some r.doc_id) := by
      show osPathJoin (osPathJoin st.result_dir tool)
          (filename st.result_dir tool (some r.doc_id))
        = filename st.result_dir tool (some r.doc_id)
      exact osPathJoin_of_abs _ _ hfn_abs
    have hgt : Servers.FileSystemStorage.get_task st tool =
        (Except.ok (some (r.doc_id, c)),
         { st with docs := docsUpdate st.docs (fun q => q.doc_id == r.doc_id)
                      (fun q => { q with status := "STARTED" }) }) := by
      simp [Servers.FileSystemStorage.get_task, Servers.FileSystemStorage.get_task_select,
        docsGet, hfind, Servers.FileSystemStorage.get_task_finish, hfn_ne, fssRead,
        hcollapse, hc]
    refine ⟨r, hmem, c, hp, hc, hgt, ?_⟩
    rw [hgt]
    exact status_docsUpdate_set st.docs tool r.doc_id "STARTED" ⟨r, hmem, rfl⟩

/-- Concrete state for the C2 witness: one PENDING document with its blob in place. -/
def stC2w : State :=
  { result_dir := "/data", tasks := [], nextTaskId := 1,
    docs := [{ doc_id := "0xd", task_id := none, path := "/data/t/0xd", status := "PENDING" }],
    fs := [("/data/t/0xd", "hello")] }

/-- Witness for C2 at a concrete one-document state. -/
theorem claim_C2_claim_behaviour_witness :
    (∃ r ∈ stC2w.docs, ∃ c : String,
      r.status = "PENDING" ∧
      fsRead stC2w.fs (filename stC2w.result_dir "t" (some r.doc_id)) = some c ∧
      Servers.FileSystemStorage.get_task stC2w "t" =
        (Except.ok (some (r.doc_id, c)),
         { stC2w with
             docs := docsUpdate stC2w.docs (fun q => q.doc_id == r.doc_id)
               (fun q => { q with status := "STARTED" }) }) ∧
      Servers.FileSystemStorage.status
        (Servers.FileSystemStorage.get_task stC2w "t").2.docs "t" r.doc_id = "STARTED") ∨
    ((∀ r ∈ stC2w.docs, r.status ≠ "PENDING") ∧
      Servers.FileSystemStorage.get_task stC2w "t" = (Except.ok none, stC2w)) :=
  claim_C2_claim_behaviour stC2w "t" (by decide) (by decide)

/-- The first worker's flip-and-read (`get_task_finish`) on the doc id its SELECT returned,
in the interleaving where both workers run their SELECT before either flips. -/
def c3Worker1 : Except String (Option (String × String)) × State :=
  Servers.FileSystemStorage.get_task_finish stC3 "t" "0xd"

/-- The second worker's flip-and-read, executed after the first worker's, on the doc id both
SELECTs returned. -/
def c3Worker2 : Except String (Option (String × String)) × State :=
  Servers.FileSystemStorage.get_task_finish c3Worker1.2 "t" "0xd"

/-- **C3** — the claim says the PENDING→STARTED check-and-flip is one atomic conditional
update, so the doc ids returned across concurrent `claim` calls contain no duplicates.  In
the code the SELECT and the UPDATE are separate statements: both workers' SELECTs (run
before either flip, on the same state) return `"0xd"`, and both flip-and-reads then succeed
— the UPDATE's WHERE clause checks `doc_id` only, not that the status is still PENDING — so
both workers claim `"0xd"` with its content. -/
theorem claim_C3_claim_not_atomic :
    Servers.FileSystemStorage.get_task_select stC3.docs = some "0xd" ∧
    c3Worker1.1 = Except.ok (some ("0xd", "hello")) ∧
    Servers.FileSystemStorage.status c3Worker1.2.docs "t" "0xd" = "STARTED" ∧
    c3Worker2.1 = Except.ok (some ("0xd", "hello")) := by
  decide

/-- Concrete state for C4: one STARTED document. -/
def stC4 : State :=
  { result_dir := "/data", tasks := [], nextTaskId := 1,
    docs := [{ doc_id := "0xd", task_id := none, path := "/data/t/0xd", status := "STARTED" }],
    fs := [("/data/t/0xd", "original")] }

/-- `store_error("t", "0xd", "boom")` on the STARTED document of `stC4`. -/
def c4Fail : Except String Unit × State :=
  Servers.FileSystemStorage.store_error stC4 "t" "0xd" "boom"

/-- **C4** — the claim says `fail` writes the error blob and flips the status field to ERROR
so that a subsequent `status` returns ERROR.  The code's `store_error` runs
`Docs.update(doc_id="ERROR")`: it overwrites the **doc_id column** instead of the status
column (against its own comment "update the status in the database"), so afterwards the row
is keyed `"ERROR"`, its status is still `"STARTED"`, and `status(tool, "0xd")` returns
`"UNKNOWN"`, not `"ERROR"`. -/
theorem claim_C4_fail_updates_wrong_field :
    c4Fail.1 = Except.ok () ∧
    fsRead c4Fail.2.fs "/data/t/0xd" = some "boom" ∧
    c4Fail.2.docs.map DocRow.doc_id = ["ERROR"] ∧
    c4Fail.2.docs.map DocRow.status = ["STARTED"] ∧
    Servers.FileSystemStorage.status c4Fail.2.docs "t" "0xd" = "UNKNOWN" := by
  decide

/-- **C5** — `store_result` first reads the current status and raises
`ValueError("Cannot store result ...")` when it is not one of STARTED/DONE/ERROR, before any
write: on a PENDING or UNKNOWN document the call fails and the state (blob and `Docs` rows)
is returned unchanged, and a successful call implies the status was STARTED, DONE or
ERROR. -/
theorem claim_C5_complete_guarded (st : State) (tool d res : String) :
    ((Servers.FileSystemStorage.status st.docs tool d = "PENDING" ∨
      Servers.FileSystemStorage.status st.docs tool d = "UNKNOWN") →
      Servers.FileSystemStorage.store_result st tool d res =
        (Except.error ("Cannot store result for task " ++ d ++ " with status "
            ++ Servers.FileSystemStorage.status st.docs tool d), st)) ∧
    ((Servers.FileSystemStorage.store_result st tool d res).1 = Except.ok () →
      Servers.FileSystemStorage.status st.docs tool d = "STARTED" ∨
      Servers.FileSystemStorage.status st.docs tool d = "DONE" ∨
      Servers.FileSystemStorage.status st.docs tool d = "ERROR") := by
  constructor
  · rintro (h | h) <;>
      · simp only [Servers.FileSystemStorage.store_result, h]
        rfl
  · intro h
    rcases hb : (Servers.FileSystemStorage.status st.docs tool d == "STARTED"
        || (Servers.FileSystemStorage.status st.docs tool d == "DONE"
        || Servers.FileSystemStorage.status st.docs tool d == "ERROR")) with _ | _
    · exfalso
      simp only [Servers.FileSystemStorage.store_result, Bool.or_assoc, hb,
        Bool.not_false, if_true] at h
      exact Except.noConfusion h
    · simpa only [Bool.or_eq_true, beq_iff_eq] using hb

/-- Concrete state for the C5 witness: a PENDING document (guard rejects) and, for the
converse direction, a STARTED document (store succeeds). -/
def stC5p : State :=
  { result_dir := "/data", tasks := [], nextTaskId := 1,
    docs := [{ doc_id := "0xd", task_id := none, path := "/data/t/0xd", status := "PENDING" }],
    fs := [("/data/t/0xd", "original")] }

/-- C5 witness variant: the same document in status STARTED. -/
def stC5s : State :=
  { stC5p with docs := [{ doc_id := "0xd", task_id := none, path := "/data/t/0xd", status := "STARTED" }] }

/-- Witness for C5: instantiated at a PENDING document (the guard fires and the state is
unchanged) and at a STARTED document (a successful store implies the status was in the
allowed set). -/
theorem claim_C5_complete_guarded_witness :
    Servers.FileSystemStorage.store_result stC5p "t" "0xd" "r" =
      (Except.error ("Cannot store result for task " ++ "0xd" ++ " with status "
          ++ Servers.FileSystemStorage.status stC5p.docs "t" "0xd"), stC5p) ∧
    (Servers.FileSystemStorage.status stC5s.docs "t" "0xd" = "STARTED" ∨
     Servers.FileSystemStorage.status stC5s.docs "t" "0xd" = "DONE" ∨
     Servers.FileSystemStorage.status stC5s.docs "t" "0xd" = "ERROR") :=
  ⟨(claim_C5_complete_guarded stC5p "t" "0xd" "r").1 (Or.inl (by decide)),
   (claim_C5_complete_guarded stC5s "t" "0xd" "r").2 (by decide)⟩

/-- Concrete state for C6: one document in status ERROR whose blob holds the stored error
text `"boom"`, plus variants in DONE and PENDING. -/
def stC6 : State :=
  { result_dir := "/data", tasks := [], nextTaskId := 1,
    docs := [{ doc_id := "0xd", task_id := none, path := "/data/t/0xd", status := "ERROR" }],
    fs := [("/data/t/0xd", "boom")] }

/-- C6 variant: the same document in status DONE with its result blob. -/
def stC6done : State :=
  { stC6 with docs := [{ doc_id := "0xd", task_id := none, path := "/data/t/0xd", status := "DONE" }],
              fs := [("/data/t/0xd", "RESULT")] }

/-- C6 variant: the same document still PENDING. -/
def stC6pending : State :=
  { stC6 with docs := [{ doc_id := "0xd", task_id := none, path := "/data/t/0xd", status := "PENDING" }] }

/-- The external tool's `convert` collaborator used in C6 (no format is requested, so it is
never called). -/
def c6Convert : String → String → String → Except String String :=
  fun _ _ _ => Except.error "unsupported"

/-- **C6** — the claim says `result` returns the blob exactly when DONE, fails with NotReady
when PENDING/STARTED/UNKNOWN, and fails with `Failed` *carrying the stored error text* when
ERROR.  The DONE and not-ready branches behave as claimed, but in the ERROR branch the code
raises `ValueError("Status of \x7bdoc_id\x7d is ERROR")` without ever reading the blob and without
even calling `.format`: the message is that constant, and the stored text `"boom"` does not
occur in it — contradicting the `StorageInterface.result` docstring ("If the status is
ERROR, the result will be raised as an exception"). -/
theorem claim_C6_result_drops_stored_error :
    Servers.FileSystemStorage.status stC6.docs "t" "0xd" = "ERROR" ∧
    fsRead stC6.fs "/data/t/0xd" = some "boom" ∧
    Servers.FileSystemStorage.result stC6 "t" "0xd" none c6Convert
      = (Except.error "Status of {doc_id} is ERROR", stC6) ∧
    containsSub "Status of {doc_id} is ERROR".data "boom".data = false ∧
    Servers.FileSystemStorage.result stC6done "t" "0xd" none c6Convert
      = (Except.ok "RESULT", stC6done) ∧
    Servers.FileSystemStorage.result stC6pending "t" "0xd" none c6Convert
      = (Except.error "Status of 0xd is PENDING", stC6pending) := by
  decide

/-- Concrete state for C7: one document in status ERROR. -/
def stC7 : State :=
  { result_dir := "/data", tasks := [], nextTaskId := 1,
    docs := [{ doc_id := "0xd", task_id := none, path := "/data/t/0xd", status := "ERROR" }],
    fs := [("/data/t/0xd", "original")] }

/-- C7 variant: the same document in status STARTED. -/
def stC7started : State :=
  { stC7 with docs := [{ doc_id := "0xd", task_id := none, path := "/data/t/0xd", status := "STARTED" }] }

/-- **C7** — the claim says a resubmission with a matching reset flag flips the document back
to PENDING, returns the pre-existing ids and retains the blob.  In the code the reset
branch's first statement is
`logging.debug("Re-assigning doc \x7bdoc_id\x7d with status \x7bstatus\x7d to \x7btool\x7d".format(**locals()))`;
no local variable is named `status` (the variable is `doc_status`), so `str.format` raises
`KeyError: 'status'` and the `Docs.update(\x7bDocs.status: "PENDING"\x7d)` on the next line never
runs: the call raises, the status is not flipped, nothing is mutated.  The same happens in
`TaskManager.process` (there even `doc_id` is missing from the locals). -/
theorem claim_C7_reset_raises_keyerror :
    Servers.FileSystemStorage.process stC7 "t" "newdoc" (some "0xd") none true false
      = (Except.error "KeyError: status", stC7) ∧
    Servers.FileSystemStorage.process stC7started "t" "newdoc" (some "0xd") none false true
      = (Except.error "KeyError: status", stC7started) ∧
    Servers.FileSystemStorage.status stC7.docs "t" "0xd" = "ERROR" ∧
    TaskManager.process stC7 "t" "newdoc" (some 1) (some "0xd") true false
      = (Except.error "KeyError: doc_id", stC7) := by
  decide

/-- **C8** — `get_id` is deterministic (it is a pure function of `(tool, doc)`), and hashing
the same content `"hello"` under tools `"t"` and `"u"` yields different ids: the MD5 runs
over `doc`-bytes followed by `tool`-bytes, and the two digests differ. -/
theorem claim_C8_get_id_dedup :
    (∀ tool doc : String, get_id tool doc = get_id tool doc) ∧
    get_id "t" "hello" ≠ get_id "u" "hello" :=
  ⟨fun _ _ => rfl, by decide⟩

/-- **C9** — the claim says a worker iteration reports a tool failure via
`store_error(tool, doc_id, str(e))` with the *claimed* doc id.  On success the code does
call `store_result` with the claimed doc id, and no exception propagates out of the
iteration in either case; but in the failure branch the source passes `id` — the Python
builtin function, not the local `doc_id` — so `store_error` receives the builtin function
object instead of the claimed `"0xd"`. -/
theorem claim_C9_worker_passes_builtin_id :
    (∀ b : Bool, workerIteration "test_upper" "0xd" "some text" (Except.error "boom") b
      = ([ClientCall.storeError "test_upper" PyVal.builtinId "boom"], false)) ∧
    PyVal.builtinId ≠ PyVal.str "0xd" ∧
    (∀ b : Bool, workerIteration "test_upper" "0xd" "some text" (Except.ok "SOME TEXT") b
      = ([ClientCall.storeResult "test_upper" "0xd" "SOME TEXT"], false)) := by
  decide

/-- Concrete state for C10: the only PENDING document was submitted under tool `"u"` — its
blob lives under `/data/u/` — and `get_task` is called for tool `"t"`. -/
def stC10 : State :=
  { result_dir := "/data", tasks := [], nextTaskId := 1,
    docs := [{ doc_id := "0xd", task_id := none, path := "/data/u/0xd", status := "PENDING" }],
    fs := [("/data/u/0xd", "hello")] }

/-- **C10** — claim selection ignores the tool: `Docs.get(Docs.status == "PENDING")` filters
on status only (the `Docs` schema has no tool column), so `get_task("t")` selects the
document submitted under `"u"` and flips it to STARTED.  (The subsequent blob read then
looks under `/data/t/` and raises `FileNotFoundError`, after the flip has already been
executed.) -/
theorem claim_C10_claim_ignores_tool :
    Servers.FileSystemStorage.get_task_select stC10.docs = some "0xd" ∧
    Servers.FileSystemStorage.status
      (Servers.FileSystemStorage.get_task stC10 "t").2.docs "t" "0xd" = "STARTED" ∧
    (Servers.FileSystemStorage.get_task stC10 "t").1 = Except.error "FileNotFoundError" := by
  decide
